import Mathlib

/-!
Shallow embedding of the telemetry core of the `o11y-4-ai` repository
(`app/observability.py`, `app/openai_service.py`, `app/main.py`), together
with theorems settling the specification's claims about it.

Python strings are modelled as `List Char`; machine floats are modelled as
exact rationals (`ℚ`); wall-clock measurements (`time.time()` deltas) are
modelled as absent metric values, since they are not functions of the data.
-/

namespace O11y

/-! ## Python string primitives (over `List Char`) -/

/-- ASCII whitespace as recognised by Python's `str.strip()` / `str.split()`
(space, tab, newline, carriage return, vertical tab, form feed). -/
def isPyWs (c : Char) : Bool :=
  c == ' ' || c == '\t' || c == '\n' || c == '\r' || c == '\x0b' || c == '\x0c'

/-- Python `str.strip()` with no arguments: drop whitespace from both ends. -/
def pyStrip (l : List Char) : List Char :=
  ((l.dropWhile isPyWs).reverse.dropWhile isPyWs).reverse

/-- Python `str.strip(chars)`: drop any of the given characters from both ends. -/
def stripSet (set : List Char) (l : List Char) : List Char :=
  ((l.dropWhile (set.contains ·)).reverse.dropWhile (set.contains ·)).reverse

/-- Python `str.lower()` (ASCII case folding suffices for the strings involved). -/
def pyLower (l : List Char) : List Char := l.map Char.toLower

/-- `charsStart pat s` is Python `s.startswith(pat)`. -/
def charsStart : List Char → List Char → Bool
  | [], _ => true
  | _ :: _, [] => false
  | p :: ps, c :: cs => p == c && charsStart ps cs

/-- `charsEnd pat s` is Python `s.endswith(pat)`. -/
def charsEnd (pat l : List Char) : Bool := charsStart pat.reverse l.reverse

/-- `containsSub pat s` is Python `pat in s` (substring containment). -/
def containsSub (pat : List Char) : List Char → Bool
  | [] => pat.isEmpty
  | c :: cs => charsStart pat (c :: cs) || containsSub pat cs

/-- Python `s.split(sep)` for a one-character separator (keeps empty fields). -/
def splitOnChar (sep : Char) : List Char → List (List Char)
  | [] => [[]]
  | c :: cs =>
    let rest := splitOnChar sep cs
    if c = sep then [] :: rest
    else
      match rest with
      | [] => [[c]]
      | r :: rs => (c :: r) :: rs

/-- Python `s.split(sep, 1)` when the separator occurs: the pieces before and
after the first occurrence; `none` models `sep not in s`. -/
def splitFirst (sep : Char) : List Char → Option (List Char × List Char)
  | [] => none
  | c :: cs =>
    if c = sep then some ([], cs)
    else (splitFirst sep cs).map (fun p => (c :: p.1, p.2))

/-- Python `s.split()` with no arguments: split on whitespace runs, no empty
fields. -/
def pySplitWs : List Char → List (List Char)
  | [] => []
  | c :: cs =>
    let rest := pySplitWs cs
    if isPyWs c then rest
    else
      match cs with
      | [] => [[c]]
      | d :: _ =>
        if isPyWs d then [c] :: rest
        else
          match rest with
          | [] => [[c]]
          | w :: ws => (c :: w) :: ws

/-- Python `s.rstrip("/")`. -/
def rstripSlash (l : List Char) : List Char :=
  (l.reverse.dropWhile (· == '/')).reverse

/-! ## Base64 (Python `base64.b64encode` of the UTF-8 encoding) -/

/-- UTF-8 encoding of one code point, as byte values. -/
def utf8Bytes (c : Char) : List Nat :=
  let n := c.toNat
  if n < 0x80 then [n]
  else if n < 0x800 then
    [0xC0 ||| (n >>> 6), 0x80 ||| (n &&& 0x3F)]
  else if n < 0x10000 then
    [0xE0 ||| (n >>> 12), 0x80 ||| ((n >>> 6) &&& 0x3F), 0x80 ||| (n &&& 0x3F)]
  else
    [0xF0 ||| (n >>> 18), 0x80 ||| ((n >>> 12) &&& 0x3F),
     0x80 ||| ((n >>> 6) &&& 0x3F), 0x80 ||| (n &&& 0x3F)]

/-- The standard base64 alphabet, indexed by sextet value. -/
def b64Char (n : Nat) : Char :=
  "ABCDEFGHIJKLMNOPQRSTUVWXYZabcdefghijklmnopqrstuvwxyz0123456789+/".data.getD n 'A'

/-- Standard base64 of a byte sequence, three bytes at a time with `=` padding. -/
def b64Chunks : List Nat → List Char
  | [] => []
  | [a] => [b64Char (a >>> 2), b64Char ((a &&& 0x3) <<< 4), '=', '=']
  | [a, b] =>
    [b64Char (a >>> 2), b64Char (((a &&& 0x3) <<< 4) ||| (b >>> 4)),
     b64Char ((b &&& 0xF) <<< 2), '=']
  | a :: b :: c :: rest =>
    b64Char (a >>> 2) :: b64Char (((a &&& 0x3) <<< 4) ||| (b >>> 4)) ::
    b64Char (((b &&& 0xF) <<< 2) ||| (c >>> 6)) :: b64Char (c &&& 0x3F) ::
    b64Chunks rest

/-- Python `base64.b64encode(s.encode("utf-8")).decode("utf-8")`. -/
def base64Encode (s : List Char) : List Char :=
  b64Chunks ((s.map utf8Bytes).flatten)

/-! ## Eval Scorer — `run_eval` (`app/observability.py`, lines 73-132)

`duration` is a wall-clock measurement and is omitted from the result record;
the function's own metric emissions (`gen_ai.eval.*`) are modelled in the
Operation Recorder section below. -/

structure EvalCriteria where
  has_content : Bool
  reasonable_length : Bool
  not_just_input : Bool
  has_spaces : Bool
  not_gibberish : Bool
deriving Repr, DecidableEq

structure EvalResult where
  score : ℚ
  passed : Bool
  criteria : EvalCriteria
deriving Repr, DecidableEq

/-- `b` counted as Python counts a boolean inside `sum([...])`. -/
def boolNat (b : Bool) : ℕ := if b then 1 else 0

/-- `x.strip() if x else ""`: Python's truthiness guard on a string. -/
def pyTruthyStrip (s : String) : List Char :=
  if s.data = [] then [] else pyStrip s.data

/-- The body of `run_eval` after both inputs have been stripped. -/
def evalCore (model_output reference_input : List Char) : EvalResult :=
  let has_content := decide (0 < model_output.length)
  let reasonable_length := decide (10 < model_output.length)
  let not_just_input := decide (pyLower model_output ≠ pyLower reference_input)
  let has_spaces := model_output.contains ' '
  let not_gibberish := decide (2 < (pySplitWs model_output).length)
  let criteria_met : ℕ :=
    boolNat has_content + boolNat reasonable_length + boolNat not_just_input +
    boolNat has_spaces + boolNat not_gibberish
  let score : ℚ := (criteria_met : ℚ) / 5
  let passed := decide ((3 : ℚ) / 5 ≤ score)
  { score := score
    passed := passed
    criteria :=
      { has_content := has_content
        reasonable_length := reasonable_length
        not_just_input := not_just_input
        has_spaces := has_spaces
        not_gibberish := not_gibberish } }

/-- `run_eval(model_output, reference_input, ...)`: `model_output` may be
`None` (the completion is `Optional[str]`); both inputs are stripped through
the truthiness guard `x.strip() if x else ""` before any criterion is
evaluated. -/
def runEval (model_output : Option String) (reference_input : String) : EvalResult :=
  evalCore
    (match model_output with
     | none => []
     | some s => pyTruthyStrip s)
    (pyTruthyStrip reference_input)

/-! ## Cost Model — `OpenAIService._calculate_cost`
(`app/openai_service.py`, lines 135-151) -/

/-- `self.pricing`: per-1K-token (input, output) USD rates, as exact rationals. -/
def defaultPricing : List (String × ℚ × ℚ) :=
  [("gpt-4-turbo-preview", (1/100, 3/100)),
   ("gpt-4", (3/100, 6/100)),
   ("gpt-3.5-turbo", (1/1000, 2/1000)),
   ("text-embedding-ada-002", (1/10000, 0))]

/-- Dictionary lookup `self.pricing[model]` guarded by `model not in self.pricing`. -/
def findPricing : List (String × ℚ × ℚ) → String → Option (ℚ × ℚ)
  | [], _ => none
  | (m, p) :: rest, model => if model = m then some p else findPricing rest model

/-- `_calculate_cost(model, input_tokens, output_tokens=0)`: unknown models
cost `0.0` (with a logged warning, not modelled); otherwise
`(input_tokens/1000)*input_rate + (output_tokens/1000)*output_rate`. -/
def calculateCost (pricing : List (String × ℚ × ℚ)) (model : String)
    (input_tokens output_tokens : ℕ) : ℚ :=
  match findPricing pricing model with
  | none => 0
  | some p => ((input_tokens : ℚ) / 1000) * p.1 + ((output_tokens : ℚ) / 1000) * p.2

/-! ## Transport Negotiator — header parsing
(`_parse_otlp_headers`, `app/observability.py`, lines 134-181)

The Python body is wrapped in `try/except` returning `{}`; every operation it
performs is total, so the embedding is a total function. Dict insertion keeps
Python semantics: a repeated key overwrites in place. -/

/-- The quote characters stripped by `strip("'\x22")`. -/
def quoteChars : List Char := ['\'', '"']

/-- Python `dict` insertion: overwrite an existing key, else append. -/
def dictInsert : List (String × String) → String → String → List (String × String)
  | [], k, v => [(k, v)]
  | (k0, v0) :: rest, k, v =>
    if k0 = k then (k, v) :: rest else (k0, v0) :: dictInsert rest k v

/-- The Authorization auto-correction applied to a parsed header value
(lines 160-173): a `Basic` value whose credential part still contains a colon
is base64-encoded; a schemeless value containing a colon (and not starting
with `bearer ` or `basic `) is assumed to be Basic credentials and encoded. -/
def fixAuthValue (k v : List Char) : List Char :=
  if pyLower k = "authorization".data then
    if charsStart "basic ".data (pyLower v) then
      if (pyStrip (v.drop 6)).contains ':' then
        "Basic ".data ++ base64Encode (pyStrip (v.drop 6))
      else v
    else
      if v.contains ':' &&
          !(charsStart "bearer ".data (pyLower v) || charsStart "basic ".data (pyLower v)) then
        "Basic ".data ++ base64Encode v
      else v
  else v

/-- One loop iteration of the header parser: parts without `=` are skipped;
otherwise the key is stripped, the value is stripped of whitespace and quotes,
and the Authorization auto-correction is applied. -/
def processPart (part : List Char) : Option (List Char × List Char) :=
  match splitFirst '=' part with
  | none => none
  | some kv =>
    let k := pyStrip kv.1
    let v := stripSet quoteChars (pyStrip kv.2)
    some (k, fixAuthValue k v)

/-- `_parse_otlp_headers(otlp_headers)`: strip surrounding quotes from the
whole string, split on commas, parse each nonempty `key=value` part. An empty
or `None` input (falsy in Python) yields the empty mapping. -/
def parseOtlpHeaders (otlp_headers : Option String) : List (String × String) :=
  match otlp_headers with
  | none => []
  | some s =>
    if s.data = [] then []
    else
      let raw := stripSet quoteChars (pyStrip s.data)
      let parts := ((splitOnChar ',' raw).map pyStrip).filter (fun p => !p.isEmpty)
      parts.foldl
        (fun hs part =>
          match processPart part with
          | none => hs
          | some kv => dictInsert hs (String.mk kv.1) (String.mk kv.2))
        []

/-! ## Transport Negotiator — protocol choice and endpoint normalization
(`_choose_otlp_mode` and `_normalize_endpoints_for_mode`,
`app/observability.py`, lines 210-248) -/

/-- The endpoint heuristic of `_choose_otlp_mode`: a `/otlp` or `/v1/` path
segment implies HTTP, otherwise gRPC. -/
def otlpHeuristic (endpoint : String) : String :=
  let ep := pyLower endpoint.data
  if containsSub "/otlp".data ep || containsSub "/v1/".data ep then "http"
  else "grpc"

/-- `_choose_otlp_mode(endpoint, explicit_protocol)`: a recognised explicit
protocol wins (an empty string is falsy and ignored); an unrecognised one
falls through to the endpoint heuristic. -/
def chooseOtlpMode (endpoint : String) (explicit_protocol : Option String) : String :=
  match explicit_protocol with
  | some p =>
    if p.data ≠ [] then
      let proto := pyLower (pyStrip p.data)
      if proto = "grpc".data then "grpc"
      else if proto = "http".data ∨ proto = "http/protobuf".data ∨
          proto = "http_json".data ∨ proto = "http/json".data then "http"
      else otlpHeuristic endpoint
    else otlpHeuristic endpoint
  | none => otlpHeuristic endpoint

/-- The hostport extraction of the gRPC branch: Python
`re.match(r"^(https?://)?([^/]+)", endpoint)` with backtracking — if the
scheme matches but nothing non-`/` follows it, the match is retried without
the scheme group; if the whole match fails, the endpoint is kept unchanged. -/
def grpcHostport (e : List Char) : List Char :=
  if charsStart "https://".data e && !(charsStart "/".data (e.drop 8) || (e.drop 8).isEmpty) then
    "https://".data ++ (e.drop 8).takeWhile (· ≠ '/')
  else if charsStart "http://".data e && !(charsStart "/".data (e.drop 7) || (e.drop 7).isEmpty) then
    "http://".data ++ (e.drop 7).takeWhile (· ≠ '/')
  else
    match e with
    | [] => []
    | c :: _ => if c = '/' then e else e.takeWhile (· ≠ '/')

/-- `_normalize_endpoints_for_mode(endpoint, mode)`: returns
`(traces_endpoint, metrics_endpoint)`. HTTP mode appends `/otlp` when no
`/otlp` or `/v1` segment is present, then `/v1/traces` and `/v1/metrics`;
gRPC mode strips any path. -/
def normalizeEndpointsForMode (endpoint : String) (mode : String) : String × String :=
  if mode = "http" then
    let base0 := rstripSlash endpoint.data
    let base :=
      if !(charsEnd "/otlp".data base0) && !(charsEnd "/v1".data base0) &&
          !(containsSub "/v1/".data base0) then
        base0 ++ "/otlp".data
      else base0
    (String.mk (base ++ "/v1/traces".data), String.mk (base ++ "/v1/metrics".data))
  else
    let hostport := grpcHostport endpoint.data
    (String.mk hostport, String.mk hostport)

/-! ## Operation Recorder — `OpenAIService.chat_completion` and
`OpenAIService.create_embeddings` (`app/openai_service.py`, lines 153-572)

The collaborator call (`await self.client...create(...)`) is modelled by an
explicit outcome: it returns a response, raises an `Exception`, or is
cancelled. `asyncio.CancelledError` derives from `BaseException` (Python ≥
3.8), so the `except Exception` block of the source does not catch it and
there is no `finally` block: a cancelled call leaves the `with` span scope
without reaching any metric statement.

Metric events record the instrument name, a value (`none` for wall-clock
measurements such as durations, which are not functions of the data) and the
string-valued attributes the source attaches. Span operations
(`set_attributes`, `add_event`, `set_status`, `record_exception`) are trace
output, not metric events, and are not modelled. -/

structure MetricEvent where
  name : String
  value : Option ℚ
  attrs : List (String × String)
deriving Repr, DecidableEq

/-- A propagated Python error: either an `Exception` subclass (carried by
its type name, as the source tags metrics with `type(e).__name__`) or a
cancellation (`asyncio.CancelledError`, which derives from `BaseException`
and is not caught by any `except Exception` handler). -/
inductive PyError
  | exc (error_type : String)
  | cancelled
deriving Repr, DecidableEq

inductive CallOutcome (α : Type)
  | success (resp : α)
  | failure (error_type : String)
  | cancelled
deriving Repr, DecidableEq

structure ChatUsage where
  prompt_tokens : ℕ
  completion_tokens : ℕ
  total_tokens : ℕ
deriving Repr, DecidableEq

/-- The fields of the OpenAI chat response the source reads. `content` and
`finish_reason` come from `response.choices[0]` (the API's first choice);
`usage` is optional, zero token counts being used when it is `None`. -/
structure ChatResponse where
  content : Option String
  finish_reason : String
  usage : Option ChatUsage
  id : String
  model : String
deriving Repr, DecidableEq

/-- The success payload returned by `chat_completion` (the
`duration_seconds` entry is a wall-clock measurement and is omitted). -/
structure ChatResult where
  response : Option String
  model : String
  prompt_tokens : ℕ
  completion_tokens : ℕ
  total_tokens : ℕ
  finish_reason : String
  cost_usd : ℚ
  eval : EvalResult
  openlit_eval : Option String
deriving Repr, DecidableEq

/-- The metric events `run_eval` itself records (`gen_ai.eval.score`,
`gen_ai.eval.duration`, and one of the pass/fail counters), lines 104-119 of
`app/observability.py`. -/
def runEvalEvents (r : EvalResult) (user_id : Option String) (system operation model : String) :
    List MetricEvent :=
  let attrs := [("gen_ai.system", system), ("gen_ai.operation.name", operation),
    ("gen_ai.request.model", model), ("eval.name", "heuristic_eval"),
    ("eval.criteria", "content,length,uniqueness,coherence"),
    ("user_id", user_id.getD "unknown"), ("telemetry_sdk_name", "opentelemetry")]
  [⟨"gen_ai.eval.score", some r.score, attrs⟩,
   ⟨"gen_ai.eval.duration", none, attrs⟩] ++
  (if r.passed then [⟨"gen_ai.eval.passed", some 1, attrs⟩]
   else [⟨"gen_ai.eval.failed", some 1, attrs⟩])

/-- `chat_completion`. Besides the request data, the embedding takes the
import-time flag `OPENLIT_AVAILABLE and openlit_evals` (`openlit_available`),
the runtime outcome of `openlit_evals.measure` (`openlit_outcome`, only
consulted when that guarded call actually runs), and the collaborator
outcome. It returns the emitted metric events in source order and either the
success payload or the propagated error.

Note the failure mode of the success path: the heuristic eval call
`run_eval(completion, messages[0]["content"], ...)` (line 338) is not inside
any `try` — with an empty `messages` list the subscript raises `IndexError`
after the success metrics were already recorded, and the outer
`except Exception` block then records a second operation-count event and
re-raises. -/
def chatCompletion (pricing : List (String × ℚ × ℚ)) (messages : List (String × String))
    (model : String) (user_id : Option String)
    (openlit_available : Bool) (openlit_outcome : Except String String)
    (outcome : CallOutcome ChatResponse) :
    List MetricEvent × Except PyError ChatResult :=
  match outcome with
  | .cancelled => ([], .error .cancelled)
  | .failure et =>
    ([⟨"gen_ai.client.operation.count", some 1,
       [("gen_ai.system", "openai"), ("gen_ai.request.model", model),
        ("gen_ai.operation.name", "chat"), ("status", "error"), ("error_type", et),
        ("user_id", user_id.getD "unknown"), ("telemetry_sdk_name", "opentelemetry")]⟩],
     .error (.exc et))
  | .success resp =>
    let input_tokens := match resp.usage with | some u => u.prompt_tokens | none => 0
    let output_tokens := match resp.usage with | some u => u.completion_tokens | none => 0
    let total_tokens := match resp.usage with | some u => u.total_tokens | none => 0
    let cost := calculateCost pricing model input_tokens output_tokens
    let common_attrs := [("gen_ai.system", "openai"), ("gen_ai.request.model", model),
      ("gen_ai.response.model", resp.model), ("gen_ai.operation.name", "chat"),
      ("server_address", "api.openai.com"), ("server_port", "443"),
      ("telemetry_sdk_name", "opentelemetry")]
    let successEvents : List MetricEvent :=
      [⟨"gen_ai.client.operation.duration", none, common_attrs⟩,
       ⟨"gen_ai.client.token.usage", some input_tokens,
        [("gen_ai.system", "openai"), ("gen_ai.request.model", model),
         ("gen_ai.token.type", "input"), ("user_id", user_id.getD "unknown"),
         ("telemetry_sdk_name", "opentelemetry")]⟩,
       ⟨"gen_ai.client.token.usage", some output_tokens,
        [("gen_ai.system", "openai"), ("gen_ai.request.model", model),
         ("gen_ai.token.type", "output"), ("user_id", user_id.getD "unknown"),
         ("telemetry_sdk_name", "opentelemetry")]⟩,
       ⟨"gen_ai.usage.input_tokens", some input_tokens, common_attrs⟩,
       ⟨"gen_ai.usage.output_tokens", some output_tokens, common_attrs⟩,
       ⟨"gen_ai.client.operation.count", some 1,
        [("gen_ai.system", "openai"), ("gen_ai.request.model", model),
         ("gen_ai.operation.name", "chat"), ("status", "success"),
         ("user_id", user_id.getD "unknown"), ("telemetry_sdk_name", "opentelemetry")]⟩,
       ⟨"gen_ai.total_requests", some 1, common_attrs⟩,
       ⟨"gen_ai.client.operation.cost", some cost,
        [("model", model), ("user_id", user_id.getD "unknown"),
         ("telemetry_sdk_name", "opentelemetry")]⟩,
       ⟨"gen_ai.usage.cost", some cost, common_attrs⟩] ++
      (if 0 < output_tokens then
        [⟨"gen_ai.server.time_per_output_token", none, common_attrs⟩]
       else [])
    match messages with
    | [] =>
      (successEvents ++
        [⟨"gen_ai.client.operation.count", some 1,
          [("gen_ai.system", "openai"), ("gen_ai.request.model", model),
           ("gen_ai.operation.name", "chat"), ("status", "error"),
           ("error_type", "IndexError"), ("user_id", user_id.getD "unknown"),
           ("telemetry_sdk_name", "opentelemetry")]⟩],
       .error (.exc "IndexError"))
    | m0 :: _ =>
      let eval_result := runEval resp.content m0.2
      let openlit_eval :=
        if openlit_available &&
            (match resp.content with | some s => !s.data.isEmpty | none => false) then
          match openlit_outcome with
          | .ok r => some r
          | .error _ => none
        else none
      (successEvents ++ runEvalEvents eval_result user_id "openai" "chat" model,
       .ok { response := resp.content, model := model,
             prompt_tokens := input_tokens, completion_tokens := output_tokens,
             total_tokens := total_tokens, finish_reason := resp.finish_reason,
             cost_usd := cost, eval := eval_result, openlit_eval := openlit_eval })

structure EmbUsage where
  total_tokens : ℕ
deriving Repr, DecidableEq

/-- The fields of the OpenAI embeddings response the source reads; the
source accesses `response.usage.total_tokens` unconditionally. -/
structure EmbResponse where
  data : List (List ℚ)
  usage : EmbUsage
  model : String
deriving Repr, DecidableEq

/-- The success payload returned by `create_embeddings` (again without the
wall-clock `duration_seconds`). -/
structure EmbResult where
  embeddings : List (List ℚ)
  model : String
  total_tokens : ℕ
  cost_usd : ℚ
deriving Repr, DecidableEq

/-- `create_embeddings`; the `texts` argument is carried only through span
attributes and logs in the source, so it does not influence the modelled
output (hence the underscore). Cost is computed with the default
`output_tokens = 0`. -/
def createEmbeddings (pricing : List (String × ℚ × ℚ)) (_texts : List (Option String))
    (model : String) (user_id : Option String) (outcome : CallOutcome EmbResponse) :
    List MetricEvent × Except PyError EmbResult :=
  match outcome with
  | .cancelled => ([], .error .cancelled)
  | .failure et =>
    ([⟨"gen_ai.client.operation.count", some 1,
       [("gen_ai.system", "openai"), ("gen_ai.request.model", model),
        ("gen_ai.operation.name", "embeddings"), ("status", "error"), ("error_type", et),
        ("user_id", user_id.getD "unknown"), ("telemetry_sdk_name", "opentelemetry")]⟩],
     .error (.exc et))
  | .success resp =>
    let input_tokens := resp.usage.total_tokens
    let cost := calculateCost pricing model input_tokens 0
    let common_attrs := [("gen_ai.system", "openai"), ("gen_ai.request.model", model),
      ("gen_ai.response.model", resp.model), ("gen_ai.operation.name", "embeddings"),
      ("server_address", "api.openai.com"), ("server_port", "443"),
      ("telemetry_sdk_name", "opentelemetry")]
    ([⟨"gen_ai.client.operation.duration", none, common_attrs⟩,
      ⟨"gen_ai.client.token.usage", some input_tokens,
       [("gen_ai.system", "openai"), ("gen_ai.request.model", model),
        ("gen_ai.token.type", "input"), ("user_id", user_id.getD "unknown"),
        ("telemetry_sdk_name", "opentelemetry")]⟩,
      ⟨"gen_ai.usage.input_tokens", some input_tokens, common_attrs⟩,
      ⟨"gen_ai.client.operation.count", some 1,
       [("gen_ai.system", "openai"), ("gen_ai.request.model", model),
        ("gen_ai.operation.name", "embeddings"), ("status", "success"),
        ("user_id", user_id.getD "unknown"), ("telemetry_sdk_name", "opentelemetry")]⟩,
      ⟨"gen_ai.total_requests", some 1, common_attrs⟩,
      ⟨"gen_ai.client.operation.cost", some cost,
       [("gen_ai.system", "openai"), ("gen_ai.request.model", model),
        ("gen_ai.operation.name", "embeddings"), ("user_id", user_id.getD "unknown"),
        ("telemetry_sdk_name", "opentelemetry")]⟩,
      ⟨"gen_ai.usage.cost", some cost, common_attrs⟩],
     .ok { embeddings := resp.data, model := model,
           total_tokens := input_tokens, cost_usd := cost })

/-- The operation-count metric events among a run's emissions. -/
def opCountEvents (evs : List MetricEvent) : List MetricEvent :=
  evs.filter (fun e => e.name = "gen_ai.client.operation.count")

/-- The `status` attribute of a metric event. -/
def statusOf (e : MetricEvent) : Option String := e.attrs.lookup "status"

/-! ## Pipeline Correlator — `full_ai_pipeline` (`app/main.py`, lines 483-592)

The five steps run sequentially inside one `try`; any exception is caught
once, at the bottom, and re-raised as `HTTPException(status_code=500,
detail=str(e))` — there are no per-step criticality flags and no error
markers: a failing step aborts the whole request. The vector store, local
model and similarity search are external collaborators here, modelled by
their outcomes; their own metric emissions are not part of this function's
modelled instruments. -/

/-- The fields of the collaborator results that the pipeline summary reads. -/
structure VectorResult where
  documents_added : ℕ
deriving Repr, DecidableEq

structure LocalResult where
  completion_tokens : ℕ
deriving Repr, DecidableEq

structure SearchResult where
  count : ℕ
deriving Repr, DecidableEq

/-- The `summary` object of the pipeline response (wall-clock
`total_duration_seconds` omitted). -/
structure PipelineSummary where
  total_cost_usd : ℚ
  steps_completed : ℕ
  openai_tokens_used : ℕ
  local_tokens_generated : ℕ
  documents_stored : ℕ
  search_results_found : ℕ
deriving Repr, DecidableEq

/-- The full pipeline response: the `results` entries plus the summary. -/
structure PipelineResponse where
  query : String
  chat : ChatResult
  embeddings : EmbResult
  vector_storage : Option VectorResult
  local_model : LocalResult
  search : SearchResult
  summary : PipelineSummary
deriving Repr, DecidableEq

/-- The failure modes of a pipeline run: the route's `except Exception`
handler re-raises `HTTPException(status_code=500, detail=str(e))`, while a
cancellation escapes that handler unwrapped. -/
inductive PipelineError
  | http (status_code : ℕ) (detail : String)
  | cancelled
deriving Repr, DecidableEq

/-- How `full_ai_pipeline`'s single `except Exception` treats a failing
step: an `Exception` becomes an HTTP 500 error carrying its detail; a
cancellation is not caught and propagates as-is. -/
def pipelineErrorOf : PyError → PipelineError
  | .exc d => .http 500 d
  | .cancelled => .cancelled

/-- `full_ai_pipeline(query, store_results, user_id)`. The configured default
chat and embedding models are environment-driven and passed explicitly. A
failure result is the `(status_code, detail)` of the raised `HTTPException`.
Step 5 reads `embedding_result["embeddings"][0]` before calling the search
collaborator, so an empty embeddings list raises `IndexError` there. -/
def fullAiPipeline (pricing : List (String × ℚ × ℚ))
    (default_model embedding_model : String)
    (query : String) (store_results : Bool) (user_id : Option String)
    (openlit_available : Bool) (openlit_outcome : Except String String)
    (chat_outcome : CallOutcome ChatResponse) (emb_outcome : CallOutcome EmbResponse)
    (vector_outcome : Except PyError VectorResult)
    (local_outcome : Except PyError LocalResult)
    (search_outcome : Except PyError SearchResult) :
    List MetricEvent × Except PipelineError PipelineResponse :=
  -- Step 1: OpenAI chat completion
  let step1 := chatCompletion pricing [("user", query)] default_model user_id
    openlit_available openlit_outcome chat_outcome
  match step1.2 with
  | .error e => (step1.1, .error (pipelineErrorOf e))
  | .ok chat =>
    -- Step 2: embeddings for [query, chat_result["response"]]
    let texts_to_embed : List (Option String) := [some query, chat.response]
    let step2 := createEmbeddings pricing texts_to_embed embedding_model user_id emb_outcome
    match step2.2 with
    | .error e => (step1.1 ++ step2.1, .error (pipelineErrorOf e))
    | .ok emb =>
      let events := step1.1 ++ step2.1
      -- Step 3: vector storage, only when requested
      let step3 : Except PyError (Option VectorResult) :=
        if store_results then vector_outcome.map some else .ok none
      match step3 with
      | .error e => (events, .error (pipelineErrorOf e))
      | .ok vres =>
        -- Step 4: local model generation
        match local_outcome with
        | .error e => (events, .error (pipelineErrorOf e))
        | .ok lres =>
          -- Step 5: similarity search on embedding_result["embeddings"][0]
          match emb.embeddings with
          | [] => (events, .error (.http 500 "IndexError"))
          | _ :: _ =>
            match search_outcome with
            | .error e => (events, .error (pipelineErrorOf e))
            | .ok sres =>
              (events,
               .ok { query := query, chat := chat, embeddings := emb,
                     vector_storage := vres, local_model := lres, search := sres,
                     summary :=
                       { total_cost_usd := chat.cost_usd + emb.cost_usd,
                         steps_completed := 5,
                         openai_tokens_used := chat.total_tokens + emb.total_tokens,
                         local_tokens_generated := lres.completion_tokens,
                         documents_stored := if store_results then 2 else 0,
                         search_results_found := sres.count } })

/-! ## Helper lemmas -/

theorem findPricing_eq_none (pricing : List (String × ℚ × ℚ)) (model : String)
    (h : model ∉ pricing.map Prod.fst) : findPricing pricing model = none := by
  induction pricing with
  | nil => rfl
  | cons e rest ih =>
    simp only [List.map_cons, List.mem_cons, not_or] at h
    simpa [findPricing, h.1] using ih h.2

theorem findPricing_rates_nonneg (pricing : List (String × ℚ × ℚ))
    (hp : ∀ e ∈ pricing, 0 ≤ e.2.1 ∧ 0 ≤ e.2.2) (model : String) (p : ℚ × ℚ)
    (h : findPricing pricing model = some p) : 0 ≤ p.1 ∧ 0 ≤ p.2 := by
  induction pricing with
  | nil => cases h
  | cons e rest ih =>
    obtain ⟨m, q⟩ := e
    simp only [findPricing] at h
    split at h
    · cases h
      exact hp (m, p) (List.mem_cons_self _ _)
    · exact ih (fun e he => hp e (List.mem_cons_of_mem _ he)) h

theorem dropWhile_eq_nil_of_all {p : Char → Bool} {l : List Char}
    (h : l.all p = true) : l.dropWhile p = [] :=
  List.dropWhile_eq_nil_iff.mpr (by simpa [List.all_eq_true] using h)

theorem pyStrip_eq_nil {l : List Char} (h : l.all isPyWs = true) : pyStrip l = [] := by
  unfold pyStrip
  rw [dropWhile_eq_nil_of_all h]
  rfl

theorem pyTruthyStrip_eq_nil {s : String} (h : s.data.all isPyWs = true) :
    pyTruthyStrip s = [] := by
  unfold pyTruthyStrip
  split
  · rfl
  · exact pyStrip_eq_nil h

theorem pyTruthyStrip_eq_nil_iff (s : String) :
    pyTruthyStrip s = [] ↔ pyStrip s.data = [] := by
  unfold pyTruthyStrip
  split
  · rename_i h
    rw [h]
    simp [pyStrip]
  · exact Iff.rfl

/-! ## Claims -/

/-- C2 counterexample: on input `(output = "", reference = "anything")` the
eval scorer does NOT return score 0 with all five criteria false: the
`not_just_input` criterion compares `"".lower() != "anything".lower()`,
which is true, so one criterion holds. -/
theorem claim_c2_counterexample :
    ¬ ((runEval (some "") "anything").score = 0 ∧
       (runEval (some "") "anything").passed = false ∧
       (runEval (some "") "anything").criteria =
         ⟨false, false, false, false, false⟩) := by
  intro h
  exact absurd h.2.2 (by decide)

/-- C2 (amended): for the input pair `(output = "", reference = "anything")`
the eval scorer returns score 1/5 — four criteria false but `not_just_input`
true, since the empty output differs from the reference — and `passed` is
false. -/
theorem claim_c2_amended :
    runEval (some "") "anything" =
      { score := 1/5, passed := false,
        criteria := ⟨false, false, true, false, false⟩ } := by
  have hx : runEval (some "") "anything" =
      { score := ((1 : ℕ) : ℚ) / 5,
        passed := decide ((3 : ℚ) / 5 ≤ ((1 : ℕ) : ℚ) / 5),
        criteria := ⟨false, false, true, false, false⟩ } := rfl
  rw [hx]
  have hs : ((1 : ℕ) : ℚ) / 5 = 1 / 5 := by norm_num
  have hp : decide ((3 : ℚ) / 5 ≤ (1 : ℚ) / 5) = false := by
    simp only [decide_eq_false_iff_not, not_le]
    norm_num
  rw [hs, hp]

/-- C5: for every model identifier not present in the static pricing table
and every pair of token counts, `_calculate_cost` returns exactly 0 (and is
total, i.e. it does not throw). -/
theorem claim_c5_unknown_model_cost_zero (model : String)
    (h : model ∉ defaultPricing.map Prod.fst) (input_tokens output_tokens : ℕ) :
    calculateCost defaultPricing model input_tokens output_tokens = 0 := by
  unfold calculateCost
  rw [findPricing_eq_none defaultPricing model h]

/-- C5 witness: `"gpt-5"` is not in the pricing table and costs 0. -/
theorem claim_c5_witness :
    "gpt-5" ∉ defaultPricing.map Prod.fst ∧
    calculateCost defaultPricing "gpt-5" 123 456 = 0 :=
  ⟨by decide, claim_c5_unknown_model_cost_zero "gpt-5" (by decide) 123 456⟩

/-- C6: for every model identifier and all token counts, the cost is
monotonically non-decreasing in `input_tokens` with `output_tokens` fixed,
and in `output_tokens` with `input_tokens` fixed. -/
theorem claim_c6_cost_monotone (model : String) (i i' o o' : ℕ) :
    (i ≤ i' →
      calculateCost defaultPricing model i o ≤ calculateCost defaultPricing model i' o) ∧
    (o ≤ o' →
      calculateCost defaultPricing model i o ≤ calculateCost defaultPricing model i o') := by
  have hrates : ∀ e ∈ defaultPricing, 0 ≤ e.2.1 ∧ 0 ≤ e.2.2 := by
    intro e he
    simp only [defaultPricing, List.mem_cons, List.not_mem_nil, or_false] at he
    rcases he with h | h | h | h <;> subst h <;> constructor <;> norm_num
  constructor <;> intro h <;> unfold calculateCost <;>
    cases hf : findPricing defaultPricing model with
  | none => exact le_refl 0
  | some p =>
    obtain ⟨h1, h2⟩ := findPricing_rates_nonneg defaultPricing hrates model p hf
    have hc : ∀ a b : ℕ, a ≤ b → (a : ℚ) / 1000 ≤ (b : ℚ) / 1000 := fun a b hab =>
      (div_le_div_iff_of_pos_right (by norm_num)).mpr (by exact_mod_cast hab)
    first
    | exact add_le_add_right (mul_le_mul_of_nonneg_right (hc i i' h) h1) _
    | exact add_le_add_left (mul_le_mul_of_nonneg_right (hc o o' h) h2) _

/-- C6 witness: concrete monotonicity instances for `"gpt-4"`. -/
theorem claim_c6_witness :
    calculateCost defaultPricing "gpt-4" 5 2 ≤ calculateCost defaultPricing "gpt-4" 7 2 ∧
    calculateCost defaultPricing "gpt-4" 5 2 ≤ calculateCost defaultPricing "gpt-4" 5 9 :=
  ⟨(claim_c6_cost_monotone "gpt-4" 5 7 2 9).1 (by decide),
   (claim_c6_cost_monotone "gpt-4" 5 7 2 9).2 (by decide)⟩

/-- C7: parsing the single header `"Authorization=Basic 123456:glc_abcdef"`
yields a mapping whose Authorization entry is exactly `"Basic "` followed by
the base64 encoding of `"123456:glc_abcdef"` (concretely,
`"Basic MTIzNDU2OmdsY19hYmNkZWY="`). -/
theorem claim_c7_parse_headers_basic_autofix :
    parseOtlpHeaders (some "Authorization=Basic 123456:glc_abcdef") =
      [("Authorization", String.mk ("Basic ".data ++ base64Encode "123456:glc_abcdef".data))] ∧
    String.mk ("Basic ".data ++ base64Encode "123456:glc_abcdef".data) =
      "Basic MTIzNDU2OmdsY19hYmNkZWY=" := by
  exact ⟨by decide, by decide⟩

/-- C8: with no explicit protocol, `"https://collector.example.com/otlp"`
resolves to HTTP mode with traces endpoint
`"https://collector.example.com/otlp/v1/traces"`, and
`"collector.example.com:4317"` resolves to gRPC mode with both endpoints
unchanged and no path. -/
theorem claim_c8_resolve_examples :
    chooseOtlpMode "https://collector.example.com/otlp" none = "http" ∧
    (normalizeEndpointsForMode "https://collector.example.com/otlp" "http").1 =
      "https://collector.example.com/otlp/v1/traces" ∧
    chooseOtlpMode "collector.example.com:4317" none = "grpc" ∧
    normalizeEndpointsForMode "collector.example.com:4317" "grpc" =
      ("collector.example.com:4317", "collector.example.com:4317") := by
  exact ⟨by decide, by decide, by decide, by decide⟩

theorem evalCore_nil_out (ri : List Char) :
    evalCore [] ri =
      { score := if ri = [] then 0 else 1 / 5,
        passed := false,
        criteria := ⟨false, false, !ri.isEmpty, false, false⟩ } := by
  by_cases h : ri = []
  · subst h
    have hx : evalCore ([] : List Char) [] =
        { score := ((0 : ℕ) : ℚ) / 5,
          passed := decide ((3 : ℚ) / 5 ≤ ((0 : ℕ) : ℚ) / 5),
          criteria := ⟨false, false, false, false, false⟩ } := rfl
    rw [hx]
    have hs : ((0 : ℕ) : ℚ) / 5 = 0 := by norm_num
    have hp : decide ((3 : ℚ) / 5 ≤ (0 : ℚ)) = false := by
      simp only [decide_eq_false_iff_not, not_le]
      norm_num
    rw [hs, hp]
    rfl
  · obtain ⟨c, cs, rfl⟩ := List.exists_cons_of_ne_nil h
    have hx : evalCore ([] : List Char) (c :: cs) =
        { score := ((1 : ℕ) : ℚ) / 5,
          passed := decide ((3 : ℚ) / 5 ≤ ((1 : ℕ) : ℚ) / 5),
          criteria := ⟨false, false, true, false, false⟩ } := rfl
    rw [hx]
    have hs : ((1 : ℕ) : ℚ) / 5 = 1 / 5 := by norm_num
    have hp : decide ((3 : ℚ) / 5 ≤ (1 : ℚ) / 5) = false := by
      simp only [decide_eq_false_iff_not, not_le]
      norm_num
    rw [hs, hp]
    rfl

/-- C10 counterexample: a whitespace-only output does give the same result
as an empty output, but that result does NOT have all five criteria false
with score 0: for `(output = " ", reference = "anything")` the
`not_just_input` criterion is true and the score is 1/5, not 0. -/
theorem claim_c10_counterexample :
    ¬ ((runEval (some " ") "anything").criteria =
         ⟨false, false, false, false, false⟩ ∧
       (runEval (some " ") "anything").score = 0) := by
  intro h
  exact absurd h.1 (by decide)

/-- C10 (amended): the eval scorer strips both inputs before evaluating (a
`None` output is treated as empty), so a whitespace-only output gives
exactly the empty-output result: `has_spaces` is false despite the raw
spaces, `passed` is false, and the score is 0 when the stripped reference is
also empty and 1/5 otherwise (the `not_just_input` criterion still compares
the two stripped strings). -/
theorem claim_c10_amended (out ref : String) (h : out.data.all isPyWs = true) :
    runEval none ref = runEval (some "") ref ∧
    runEval (some out) ref = runEval (some "") ref ∧
    (runEval (some out) ref).criteria.has_spaces = false ∧
    (runEval (some out) ref).passed = false ∧
    (runEval (some out) ref).score = (if pyStrip ref.data = [] then 0 else 1 / 5) := by
  have hout : pyTruthyStrip out = [] := pyTruthyStrip_eq_nil h
  have hempty : runEval (some out) ref = evalCore [] (pyTruthyStrip ref) := by
    simp [runEval, hout]
  have h0 : runEval (some "") ref = evalCore [] (pyTruthyStrip ref) := by
    simp [runEval, pyTruthyStrip]
  refine ⟨rfl, by rw [hempty, h0], ?_, ?_, ?_⟩
  · rw [hempty, evalCore_nil_out]
  · rw [hempty, evalCore_nil_out]
  · rw [hempty, evalCore_nil_out]
    by_cases hc : pyStrip ref.data = []
    · rw [if_pos ((pyTruthyStrip_eq_nil_iff ref).mpr hc), if_pos hc]
    · rw [if_neg (fun hh => hc ((pyTruthyStrip_eq_nil_iff ref).mp hh)), if_neg hc]

/-- C10 witness: a concrete whitespace-only output behaves like the empty
output. -/
theorem claim_c10_witness :
    " \t ".data.all isPyWs = true ∧
    runEval (some " \t ") "some reference" = runEval (some "") "some reference" :=
  ⟨by decide, (claim_c10_amended " \t " "some reference" (by decide)).2.1⟩

theorem charsStart_cons (p c : Char) (ps cs : List Char) :
    charsStart (p :: ps) (c :: cs) = (p == c && charsStart ps cs) := rfl

theorem not_basic_of_bearer (l : List Char)
    (h : charsStart "bearer ".data l = true) :
    charsStart "basic ".data l = false := by
  have hbe : "bearer ".data = 'b' :: 'e' :: "arer ".data := rfl
  have hba : "basic ".data = 'b' :: 'a' :: "sic ".data := rfl
  cases l with
  | nil => cases h
  | cons c0 t =>
    cases t with
    | nil =>
      rw [hbe, charsStart_cons] at h
      have hf : charsStart ('e' :: "arer ".data) ([] : List Char) = false := rfl
      rw [hf, Bool.and_false] at h
      cases h
    | cons c1 rest =>
      rw [hbe, charsStart_cons, charsStart_cons] at h
      rw [hba, charsStart_cons, charsStart_cons]
      simp only [Bool.and_eq_true, beq_iff_eq] at h
      obtain ⟨h0, h1, -⟩ := h
      subst h0
      subst h1
      have hae : ('a' == 'e') = false := rfl
      rw [hae, Bool.false_and, Bool.and_false]

theorem fixAuthValue_bearer_input (k v : List Char)
    (hb : charsStart "bearer ".data (pyLower v) = true) :
    fixAuthValue k v = v := by
  unfold fixAuthValue
  split_ifs with h1 h2 h3 h4
  · rw [not_basic_of_bearer (pyLower v) hb] at h2
    cases h2
  · rfl
  · rw [hb] at h4
    simp at h4
  · rfl
  · rfl

/-- C9: for every header part whose value — after the whitespace and quote
trimming the parser applies — begins with `"bearer "` (case-insensitively),
the parser emits exactly that trimmed value: no base64 encoding is applied
to Bearer values, colon or not (the first encoding branch requires a
`"basic "` prefix, which a `"bearer "`-prefixed value cannot have, and the
second explicitly excludes `"bearer "`). -/
theorem claim_c9_bearer_passthrough (part : List Char) (kv : List Char × List Char)
    (hsplit : splitFirst '=' part = some kv)
    (hb : charsStart "bearer ".data
      (pyLower (stripSet quoteChars (pyStrip kv.2))) = true) :
    processPart part = some (pyStrip kv.1, stripSet quoteChars (pyStrip kv.2)) := by
  simp only [processPart, hsplit]
  rw [fixAuthValue_bearer_input _ _ hb]

/-- C9 witness: a concrete Bearer value containing a colon passes through
unchanged. -/
theorem claim_c9_witness :
    splitFirst '=' "Authorization=Bearer abc:123".data =
      some ("Authorization".data, "Bearer abc:123".data) ∧
    charsStart "bearer ".data
      (pyLower (stripSet quoteChars (pyStrip "Bearer abc:123".data))) = true ∧
    processPart "Authorization=Bearer abc:123".data =
      some (pyStrip "Authorization".data,
        stripSet quoteChars (pyStrip "Bearer abc:123".data)) :=
  ⟨by decide, by decide,
   claim_c9_bearer_passthrough "Authorization=Bearer abc:123".data
     ("Authorization".data, "Bearer abc:123".data) (by decide) (by decide)⟩

theorem filter_ite (p : MetricEvent → Bool) (c : Prop) [Decidable c]
    (a b : List MetricEvent) :
    List.filter p (if c then a else b) =
      if c then List.filter p a else List.filter p b := by
  split <;> rfl

/-- C1 counterexample: a forced cancellation of the collaborator call emits
ZERO operation-count metric events, not exactly one — `except Exception`
does not catch `asyncio.CancelledError` and there is no `finally` block. -/
theorem claim_c1_counterexample :
    opCountEvents (chatCompletion defaultPricing [("user", "hi")] "gpt-4" none false
      (.error "unavailable") .cancelled).1 = [] ∧
    ¬ (opCountEvents (chatCompletion defaultPricing [("user", "hi")] "gpt-4" none false
      (.error "unavailable") .cancelled).1).length = 1 := by
  exact ⟨rfl, by decide⟩

/-- C1 (amended): for chat completions and embedding creations, a successful
collaborator call followed by a successful eval emits exactly one
operation-count event with `status = "success"`, a collaborator failure
emits exactly one with `status = "error"` — but a forced cancellation emits
none, and a chat call whose collaborator succeeds on an empty message list
emits two (the success one, then an error one when the unguarded eval
invocation raises `IndexError`). -/
theorem claim_c1_amended (pricing : List (String × ℚ × ℚ))
    (messages : List (String × String)) (model : String) (uid : Option String)
    (oa : Bool) (oo : Except String String) (texts : List (Option String)) :
    (∀ resp : ChatResponse, messages ≠ [] →
      (opCountEvents
        (chatCompletion pricing messages model uid oa oo (.success resp)).1).map statusOf =
        [some "success"]) ∧
    (∀ et, (opCountEvents
        (chatCompletion pricing messages model uid oa oo (.failure et)).1).map statusOf =
        [some "error"]) ∧
    opCountEvents (chatCompletion pricing messages model uid oa oo .cancelled).1 = [] ∧
    (∀ resp : ChatResponse,
      (opCountEvents
        (chatCompletion pricing [] model uid oa oo (.success resp)).1).map statusOf =
        [some "success", some "error"]) ∧
    (∀ resp : EmbResponse,
      (opCountEvents
        (createEmbeddings pricing texts model uid (.success resp)).1).map statusOf =
        [some "success"]) ∧
    (∀ et, (opCountEvents
        (createEmbeddings pricing texts model uid (.failure et)).1).map statusOf =
        [some "error"]) ∧
    opCountEvents (createEmbeddings pricing texts model uid .cancelled).1 = [] := by
  refine ⟨?_, ?_, rfl, ?_, ?_, ?_, rfl⟩
  · intro resp hm
    cases messages with
    | nil => exact absurd rfl hm
    | cons m0 ms =>
      simp +decide [chatCompletion, opCountEvents, statusOf, runEvalEvents,
        List.filter_append, filter_ite, List.lookup]
  · intro et
    simp +decide [chatCompletion, opCountEvents, statusOf, List.lookup]
  · intro resp
    simp +decide [chatCompletion, opCountEvents, statusOf,
      List.filter_append, filter_ite, List.lookup]
  · intro resp
    simp +decide [createEmbeddings, opCountEvents, statusOf, List.lookup]
  · intro et
    simp +decide [createEmbeddings, opCountEvents, statusOf, List.lookup]

/-- C1 witness: a concrete successful chat completion emits exactly one
operation-count event, with `status = "success"`. -/
theorem claim_c1_witness :
    (opCountEvents (chatCompletion defaultPricing [("user", "hi")] "gpt-4" none false
      (.error "off")
      (.success ⟨some "hello world there", "stop", some ⟨3, 5, 8⟩, "id", "gpt-4"⟩)).1).map
      statusOf = [some "success"] :=
  (claim_c1_amended defaultPricing [("user", "hi")] "gpt-4" none false (.error "off") []).1
    ⟨some "hello world there", "stop", some ⟨3, 5, 8⟩, "id", "gpt-4"⟩ (by decide)

/-- C3 counterexample: with an empty message list the collaborator call can
succeed and the eval invocation `run_eval(completion, messages[0]["content"],
...)` then raises `IndexError` — the failure is NOT caught: the operation
propagates it instead of returning its success payload. -/
theorem claim_c3_counterexample :
    (chatCompletion defaultPricing [] "gpt-4" none false (.error "x")
      (.success ⟨some "a fine answer indeed", "stop", some ⟨3, 5, 8⟩, "id", "gpt-4"⟩)).2 =
      .error (.exc "IndexError") := rfl

/-- C3 (amended): after a successful collaborator call, only the secondary
OpenLIT evaluation is guarded — its failure is caught and its result simply
omitted (`none`) from the returned success payload, which still carries the
heuristic `run_eval` result. A failure at the heuristic Eval Scorer
invocation itself (the unguarded `messages[0]` subscript on an empty message
list) propagates to the caller as an error. -/
theorem claim_c3_amended (pricing : List (String × ℚ × ℚ)) (m0 : String × String)
    (ms : List (String × String)) (model : String) (uid : Option String) (oa : Bool)
    (oo : Except String String) (e : String) (resp : ChatResponse) :
    (∃ r, (chatCompletion pricing (m0 :: ms) model uid oa (.error e) (.success resp)).2 =
        .ok r ∧
      r.openlit_eval = none ∧
      r.eval = runEval resp.content m0.2 ∧
      r.response = resp.content) ∧
    (chatCompletion pricing [] model uid oa oo (.success resp)).2 =
      .error (.exc "IndexError") := by
  constructor
  · refine ⟨_, rfl, ?_, rfl, rfl⟩
    exact ite_self none
  · rfl

/-- C4 counterexample: when the pipeline's step 2 (embedding creation)
fails, no PipelineSummary is produced at all — the exception escapes as an
HTTP 500 error instead of a summary with an error-marked step record. -/
theorem claim_c4_counterexample :
    (fullAiPipeline defaultPricing "gpt-4-turbo-preview" "text-embedding-ada-002"
      "what is o11y" true none false (.error "no openlit")
      (.success ⟨some "observability is telemetry", "stop", some ⟨9, 4, 13⟩, "id",
        "gpt-4-turbo-preview"⟩)
      (.failure "APIConnectionError") (.ok ⟨2⟩) (.ok ⟨7⟩) (.ok ⟨3⟩)).2 =
      .error (.http 500 "APIConnectionError") := rfl

/-- C4 (amended): the pipeline declares no per-step criticality — when any
step fails (in particular step 2, the embedding creation) the exception
aborts the run and surfaces as an `HTTPException` with status 500 and the
error detail, with no summary returned; only a fully successful run returns
a summary, whose `total_cost_usd` is the chat cost plus the embedding cost
(the remaining steps carry no cost). -/
theorem claim_c4_amended (pricing : List (String × ℚ × ℚ)) (dm em query : String)
    (store : Bool) (uid : Option String) (oa : Bool) (oo : Except String String)
    (rc : ChatResponse) (re : EmbResponse) (vr : VectorResult) (lr : LocalResult)
    (sr : SearchResult) (vout : Except PyError VectorResult)
    (lout : Except PyError LocalResult) (sout : Except PyError SearchResult)
    (et : String) :
    ((fullAiPipeline pricing dm em query store uid oa oo (.success rc) (.failure et)
        vout lout sout).2 = .error (.http 500 et)) ∧
    (re.data ≠ [] →
      ∃ r, (fullAiPipeline pricing dm em query true uid oa oo (.success rc) (.success re)
          (.ok vr) (.ok lr) (.ok sr)).2 = .ok r ∧
        r.summary.total_cost_usd = r.chat.cost_usd + r.embeddings.cost_usd ∧
        r.summary.steps_completed = 5) := by
  constructor
  · simp only [fullAiPipeline, chatCompletion, createEmbeddings, pipelineErrorOf]
  · intro hre
    obtain ⟨d, u, m⟩ := re
    cases d with
    | nil => exact absurd rfl hre
    | cons e0 es => exact ⟨_, rfl, rfl, rfl⟩

/-- C4 witness: a concrete fully successful run returns a summary costing
exactly the chat step plus the embedding step. -/
theorem claim_c4_witness :
    ∃ r, (fullAiPipeline defaultPricing "gpt-4-turbo-preview" "text-embedding-ada-002"
        "what is o11y" true none false (.error "no openlit")
        (.success ⟨some "observability is telemetry", "stop", some ⟨9, 4, 13⟩, "id",
          "gpt-4-turbo-preview"⟩)
        (.success ⟨[[1, 0], [0, 1]], ⟨11⟩, "text-embedding-ada-002"⟩)
        (.ok ⟨2⟩) (.ok ⟨7⟩) (.ok ⟨3⟩)).2 = .ok r ∧
      r.summary.total_cost_usd = r.chat.cost_usd + r.embeddings.cost_usd ∧
      r.summary.steps_completed = 5 :=
  (claim_c4_amended defaultPricing "gpt-4-turbo-preview" "text-embedding-ada-002"
    "what is o11y" true none false (.error "no openlit")
    ⟨some "observability is telemetry", "stop", some ⟨9, 4, 13⟩, "id", "gpt-4-turbo-preview"⟩
    ⟨[[1, 0], [0, 1]], ⟨11⟩, "text-embedding-ada-002"⟩
    ⟨2⟩ ⟨7⟩ ⟨3⟩ (.ok ⟨2⟩) (.ok ⟨7⟩) (.ok ⟨3⟩) "unused").2 (by decide)

end O11y
